import Mathlib

/-!
# The blog post page template (src/templates/blog-post.js)

A shallow embedding of the one source file of the repository: the React
component `BlogPostTemplate` (its `render` and `componentDidMount` methods)
and the GraphQL document `pageQuery`.

* JavaScript values are the closed type `JSValue`. Reading a property of
  `undefined` or `null` raises a `TypeError`, and so does the conversion to a
  string of an object that has no callable `toString`, so every property read
  and every template substitution is a computation in `Except JSError`.
* A React element is a `Node`: an element type, its props and its children.
  A JSX child written `{e}` or as literal text is a `Node.value`.
* The call `Prism.highlightAll()` is an entry appended to an explicit effect
  log.
* `pageQuery` is the syntax tree of the GraphQL text between the backquotes.
-/

namespace BlogPost

/-! ## JavaScript values -/

/-- The JavaScript values the page data is made of: `undefined`, `null`,
booleans, strings and plain objects, as `JSON.parse` builds them: the
prototype is `Object.prototype` and the own properties are data properties
with string keys (a list, the first entry for a key being the one that is
read). Numbers, arrays and functions are not modelled. -/
inductive JSValue where
  | undefined
  | null
  | bool (b : Bool)
  | str (s : String)
  | obj (fields : List (String × JSValue))

/-- The one exception the template can raise, a `TypeError`: on reading a
property of `undefined` or `null`, and on converting to a string an object
that cannot be converted. -/
inductive JSError where
  | typeError
  deriving DecidableEq, Repr

/-- Looks a key up among own properties; the first entry wins. -/
def lookupField (key : String) : List (String × JSValue) → Option JSValue
  | [] => none
  | (k, v) :: rest => if k = key then some v else lookupField key rest

/-- Property read `v.key` (also one name of a destructuring pattern
`const { key } = v`): a `TypeError` on `undefined` and `null`, the own
property of an object or `undefined` when it has none, and `undefined` on a
boolean or a string (none of the names read by the template is a property of
`Boolean.prototype`, `String.prototype` or `Object.prototype`). -/
def JSValue.get (v : JSValue) (key : String) : Except JSError JSValue :=
  match v with
  | .undefined => .error .typeError
  | .null => .error .typeError
  | .bool _ => .ok .undefined
  | .str _ => .ok .undefined
  | .obj fields => .ok ((lookupField key fields).getD .undefined)

/-- Reads a chain of properties `v.k1.k2...`, left to right. -/
def JSValue.getPath (v : JSValue) : List String → Except JSError JSValue
  | [] => .ok v
  | k :: ks =>
    match v.get k with
    | .ok w => w.getPath ks
    | .error e => .error e

/-- The string conversion applied to a substitution of a template literal.
On an object the conversion calls its `toString`, then its `valueOf`, and
takes the first primitive result. Without an own `toString` the object
inherits the one of `Object.prototype`, which returns `[object Object]`. An
own `toString` is a data value, never a function, and is skipped; `valueOf`
is then either an own data value, skipped too, or the inherited one, which
returns the object itself and not a primitive: a `TypeError`. -/
def JSValue.toStr : JSValue → Except JSError String
  | .undefined => .ok "undefined"
  | .null => .ok "null"
  | .bool true => .ok "true"
  | .bool false => .ok "false"
  | .str s => .ok s
  | .obj fields =>
    match lookupField "toString" fields with
    | some _ => .error .typeError
    | none => .ok "[object Object]"

/-- Whether a value is `undefined` or `null`. -/
def JSValue.isNullish : JSValue → Bool
  | .undefined => true
  | .null => true
  | _ => false

/-! ## React elements -/

/-- The element types the template instantiates: the imported components, the
three styled components declared in the file (`Wrapper` is a styled `div`,
`Codesandbox` a styled `iframe`, `Lead` a styled `p`) and host tags. -/
inductive ElementType where
  | Layout
  | Wrapper
  | Header
  | Footer
  | Helmet
  | PostHeader
  | ReactPlayer
  | Lead
  | Codesandbox
  | MDXRenderer
  | DripEmail
  | host (tag : String)
  deriving DecidableEq, Repr

/-- A node of the tree `render` returns: a React element with its props (the
children kept apart) and children, or a child that is a JavaScript value
(literal text is a string value). -/
inductive Node where
  | element (type : ElementType) (props : List (String × JSValue)) (children : List Node)
  | value (v : JSValue)

/-- The element type at the root of a node. -/
def Node.type? : Node → Option ElementType
  | .element t _ _ => some t
  | .value _ => none

/-- The props of an element. -/
def Node.props : Node → List (String × JSValue)
  | .element _ ps _ => ps
  | .value _ => []

/-- The children of an element. -/
def Node.children : Node → List Node
  | .element _ _ cs => cs
  | .value _ => []

mutual
/-- The elements of a node in document order (the node itself first, then its
descendants, depth first and left to right). -/
def Node.elements : Node → List Node
  | .element t ps cs => .element t ps cs :: Node.elementsOfList cs
  | .value _ => []
/-- The elements of a list of siblings in document order. -/
def Node.elementsOfList : List Node → List Node
  | [] => []
  | c :: cs => c.elements ++ Node.elementsOfList cs
end

/-- The elements below a node (the node itself left out) in document order. -/
def Node.descendants (n : Node) : List Node :=
  Node.elementsOfList n.children

/-- The element types met in a list of elements. -/
def typesOf (ns : List Node) : List ElementType :=
  ns.filterMap Node.type?

/-- The elements of a given type in a node, in document order. -/
def Node.findAll (t : ElementType) (n : Node) : List Node :=
  n.elements.filter (fun e => decide (e.type? = some t))

/-- The value of a prop of an element, when it has that prop. -/
def Node.prop? (n : Node) (key : String) : Option JSValue :=
  lookupField key n.props

/-- Whether a node is the content column: a `div` whose class is `Middle`. -/
def Node.isMiddle (n : Node) : Bool :=
  match n.type?, n.prop? "className" with
  | some (.host "div"), some (.str "Middle") => true
  | _, _ => false

/-- The content columns of a tree, in document order. -/
def Node.middles (n : Node) : List Node :=
  n.elements.filter Node.isMiddle

/-! ## BlogPostTemplate -/

/-- The JSX expression `render` returns (lines 47 to 84), as a function of the
values of the expressions between braces, in the order they are evaluated:
`titleText`, `siteTitleText`, `videoIdText` and `codesandboxIdText` are the
substitutions of the three template literals, already converted to strings. -/
def pageTree (location : JSValue) (titleText siteTitleText : String)
    (date title2 : JSValue) (videoIdText : String) (intro : JSValue)
    (codesandboxIdText : String) (scope body : JSValue) : Node :=
  .element .Layout [("location", location)] [
    .element .Wrapper [] [
      .element .Header [] [],
      .element (.host "div") [("className", .str "Middle")] [
        .element (.host "div") [("className", .str "HeadTop")] [
          .element .Helmet
            [("title", .str (titleText ++ " | " ++ siteTitleText))] [],
          .element .PostHeader [("postdate", date)] [],
          .element (.host "h1") [] [.value title2]],
        .element .ReactPlayer
          [("url", .str ("https://www.youtube.com/watch?v=" ++ videoIdText))] [],
        .element .Lead [] [.value intro],
        .element (.host "h2") [] [.value (.str "Try it out 👇")],
        .element .Codesandbox
          [("src", .str ("https://codesandbox.io/embed/" ++ codesandboxIdText)),
           ("class", .str "embedded-codesandbox"),
           ("sandbox", .str
             "allow-modals allow-forms allow-popups allow-scripts allow-same-origin")] [],
        .element (.host "div") [] [
          .element .MDXRenderer [("scope", scope)] [.value body]],
        .element (.host "hr") [] [],
        .element .DripEmail [] []],
      .element .Footer [] []]]

/-- The method `render` of `BlogPostTemplate`, on the value of `this.props`:
the destructuring of line 43 to 45, then the property reads and the string
conversions of the JSX expression in evaluation order (a template literal
converts each substitution before it evaluates the next). The names
`children` and the rest `props` are bound and never used. -/
def BlogPostTemplate.render (thisProps : JSValue) : Except JSError Node := do
  let _children ← thisProps.get "children"
  let data ← thisProps.get "data"
  let location ← thisProps.get "location"
  let mdx ← data.get "mdx"
  let frontmatter ← mdx.get "frontmatter"
  let title ← frontmatter.get "title"
  let titleText ← title.toStr
  let site ← data.get "site"
  let siteMetadata ← site.get "siteMetadata"
  let siteTitle ← siteMetadata.get "title"
  let siteTitleText ← siteTitle.toStr
  let date ← frontmatter.get "date"
  let title2 ← frontmatter.get "title"
  let videoId ← frontmatter.get "videoId"
  let videoIdText ← videoId.toStr
  let intro ← frontmatter.get "intro"
  let codesandboxId ← frontmatter.get "codesandboxId"
  let codesandboxIdText ← codesandboxId.toStr
  let scope ← thisProps.get "__mdxScope"
  let code ← mdx.get "code"
  let body ← code.get "body"
  pure (pageTree location titleText siteTitleText date title2 videoIdText intro
    codesandboxIdText scope body)

/-- The value a property read yields when it does not raise. -/
def JSValue.field (v : JSValue) (key : String) : JSValue :=
  match v with
  | .obj fields => (lookupField key fields).getD .undefined
  | _ => .undefined

/-- Whether an object has an own property named `toString`. -/
def JSValue.ownToString : JSValue → Bool
  | .obj fields => (lookupField "toString" fields).isSome
  | _ => false

/-- The string a conversion yields when it does not raise. -/
def JSValue.text : JSValue → String
  | .undefined => "undefined"
  | .null => "null"
  | .bool true => "true"
  | .bool false => "false"
  | .str s => s
  | .obj _ => "[object Object]"

/-- Reading the chain of properties raises nothing. -/
def Readable (v : JSValue) (path : List String) : Prop :=
  ∃ w, v.getPath path = .ok w

/-- Reading the chain of properties and converting the value read to a string
raises nothing. -/
def ReadableText (v : JSValue) (path : List String) : Prop :=
  ∃ w s, v.getPath path = .ok w ∧ w.toStr = .ok s

/-- The chains of property reads of `render` that start at `data`, in the
order they are first evaluated (lines 54, 56, 61, 64, 68 and 75, through the
names bound on lines 44 and 45). -/
def renderDataPaths : List (List String) :=
  [["mdx", "frontmatter", "title"],
   ["site", "siteMetadata", "title"],
   ["mdx", "frontmatter", "date"],
   ["mdx", "frontmatter", "videoId"],
   ["mdx", "frontmatter", "intro"],
   ["mdx", "frontmatter", "codesandboxId"],
   ["mdx", "code", "body"]]

/-- The result of `render` from the outcomes of its seven chains of reads on
`data`, taken in the order of `renderDataPaths`: the first failure of a read
or of a string conversion if there is one, the page tree otherwise. It
restates `render` for the comparison of two data values;
`render_eq_renderFrom` relates the two. -/
def renderFrom (location scope : JSValue)
    (title siteTitle date videoId intro codesandboxId body : Except JSError JSValue) :
    Except JSError Node := do
  let t ← title
  let titleText ← t.toStr
  let s ← siteTitle
  let siteTitleText ← s.toStr
  let d ← date
  let v ← videoId
  let videoIdText ← v.toStr
  let i ← intro
  let c ← codesandboxId
  let codesandboxIdText ← c.toStr
  let b ← body
  pure (pageTree location titleText siteTitleText d t videoIdText i codesandboxIdText
    scope b)

/-! ## The lifecycle -/

/-- The calls the component makes to the outside. -/
inductive Effect where
  | prismHighlightAll
  deriving DecidableEq, Repr

/-- The calls made so far, oldest first. -/
abbrev EffectLog := List Effect

/-- The call `Prism.highlightAll()`, recorded in the log. -/
def Prism.highlightAll (log : EffectLog) : EffectLog :=
  log ++ [Effect.prismHighlightAll]

/-- The method `componentDidMount` (lines 39 to 41): one call of
`Prism.highlightAll`. -/
def BlogPostTemplate.componentDidMount (log : EffectLog) : EffectLog :=
  Prism.highlightAll log

/-- What the host framework asks of the component: a render with the current
props, or the notification that the tree of the first render was attached to
the display. -/
inductive LifecycleEvent where
  | render (props : JSValue)
  | mount

/-- A component instance: the calls made so far and the result of the last
render. -/
structure Instance where
  log : EffectLog
  output : Option (Except JSError Node)

/-- A fresh instance. -/
def Instance.init : Instance :=
  { log := [], output := none }

/-- Whether a render returned a tree. -/
def returned : Except JSError Node → Bool
  | .ok _ => true
  | .error _ => false

/-- One lifecycle step. A render evaluates `render`, whose body makes no call
besides property reads, string conversions and element creation, and leaves
the log as it is. A mount runs `componentDidMount` on an instance whose last
render returned a tree; the host mounts no other instance, and there the step
does nothing. -/
def Instance.step (s : Instance) : LifecycleEvent → Instance
  | .render props => { log := s.log, output := some (BlogPostTemplate.render props) }
  | .mount =>
    match s.output with
    | some (.ok _) =>
      { log := BlogPostTemplate.componentDidMount s.log, output := s.output }
    | _ => s

/-- Runs a sequence of lifecycle events. -/
def Instance.run (s : Instance) (events : List LifecycleEvent) : Instance :=
  events.foldl Instance.step s

/-- The renders that follow the mount, one for every later props value up to
and including the first that raises, after which the host discards the
instance. -/
def laterRenders : List JSValue → List LifecycleEvent
  | [] => []
  | props :: rest =>
    .render props ::
      (match BlogPostTemplate.render props with
       | .ok _ => laterRenders rest
       | .error _ => [])

/-- The events of one instance under the host framework. The first render
comes first. The mount follows when that render returned a tree and the host
could attach it to the display (`attached`; a child component that raises or
a value that is no valid child keeps it from doing so); the later renders
follow the mount. When the first render raises, or the tree is not attached,
the instance is discarded and nothing follows. -/
def lifecycle (first : JSValue) (attached : Bool) (updates : List JSValue) :
    List LifecycleEvent :=
  match returned (BlogPostTemplate.render first), attached with
  | true, true => .render first :: .mount :: laterRenders updates
  | _, _ => [.render first]

/-! ## pageQuery -/

/-- A GraphQL type reference. -/
inductive GQLType where
  | named (name : String)
  | nonNull (inner : GQLType)
  deriving DecidableEq, Repr

/-- A GraphQL argument value. -/
inductive GQLValue where
  | variable (name : String)
  | string (s : String)
  | object (fields : List (String × GQLValue))

/-- A field of a selection set: its name, arguments and own selection set. -/
inductive Selection where
  | field (name : String) (arguments : List (String × GQLValue))
      (selectionSet : List Selection)

/-- A query operation: its variable definitions and selection set. -/
structure Query where
  variableDefinitions : List (String × GQLType)
  selectionSet : List Selection

/-- The exported `pageQuery` (lines 90 to 111). -/
def pageQuery : Query :=
  { variableDefinitions := [("slug", .nonNull (.named "String"))],
    selectionSet := [
      .field "site" [] [
        .field "siteMetadata" [] [
          .field "title" [] []]],
      .field "mdx"
        [("fields", .object [("slug", .object [("eq", .variable "slug")])])] [
        .field "id" [] [],
        .field "code" [] [
          .field "body" [] []],
        .field "frontmatter" [] [
          .field "title" [] [],
          .field "date" [("formatString", .string "MMMM DD, YYYY")] [],
          .field "videoId" [] [],
          .field "codesandboxId" [] [],
          .field "intro" [] []]]] }

mutual
/-- The paths to the fields without a selection set of their own below a
field, the field name first. -/
def Selection.leafPaths : Selection → List (List String)
  | .field name _ sub =>
    if sub.isEmpty then [[name]]
    else (Selection.leafPathsOfList sub).map (fun path => name :: path)
/-- The paths to the leaf fields of a selection set, in document order. -/
def Selection.leafPathsOfList : List Selection → List (List String)
  | [] => []
  | s :: rest => s.leafPaths ++ Selection.leafPathsOfList rest
end

mutual
/-- The fields that carry arguments below a field, each with its path and its
arguments. -/
def Selection.argumentSites : Selection → List (List String × List (String × GQLValue))
  | .field name args sub =>
    (if args.isEmpty then [] else [([name], args)])
      ++ (Selection.argumentSitesOfList sub).map (fun site => (name :: site.1, site.2))
/-- The fields that carry arguments in a selection set, in document order. -/
def Selection.argumentSitesOfList :
    List Selection → List (List String × List (String × GQLValue))
  | [] => []
  | s :: rest => s.argumentSites ++ Selection.argumentSitesOfList rest
end

/-- The leaf fields a query requests. -/
def Query.leafPaths (q : Query) : List (List String) :=
  Selection.leafPathsOfList q.selectionSet

/-- The fields of a query that carry arguments. -/
def Query.argumentSites (q : Query) : List (List String × List (String × GQLValue)) :=
  Selection.argumentSitesOfList q.selectionSet

/-! ## Sample pages -/

/-- The result of the page query for one post. -/
def sampleData : JSValue :=
  .obj [
    ("site", .obj [("siteMetadata", .obj [("title", .str "Dataviz Advent")])]),
    ("mdx", .obj [
      ("id", .str "a1"),
      ("code", .obj [("body", .str "function MDXContent() ...")]),
      ("frontmatter", .obj [
        ("title", .str "Bar chart"),
        ("date", .str "December 01, 2018"),
        ("videoId", .str "a&b #c"),
        ("codesandboxId", .str "5wq1j8zv7l"),
        ("intro", .str "A first chart")])])]

/-- A page as the build pipeline supplies it: a location, the scope of the
body renderer and the result of the page query. -/
def sampleProps : JSValue :=
  .obj [
    ("location", .obj [("pathname", .str "/barchart/")]),
    ("__mdxScope", .obj []),
    ("data", sampleData)]

/-- The sample page with another scope for the body renderer and some other
props; `data` and `location` are those of `sampleProps`. -/
def samplePropsOtherScope : JSValue :=
  .obj [
    ("location", .obj [("pathname", .str "/barchart/")]),
    ("__mdxScope", .obj [("Chart", .str "component")]),
    ("children", .str "ignored"),
    ("pageContext", .obj [("slug", .str "/barchart/")]),
    ("data", sampleData)]

/-- A page whose data has a site title, an mdx node and its frontmatter, and
no `code` on the mdx node. -/
def propsWithoutCode : JSValue :=
  .obj [
    ("location", .obj []),
    ("data", .obj [
      ("site", .obj [("siteMetadata", .obj [("title", .str "Dataviz Advent")])]),
      ("mdx", .obj [
        ("frontmatter", .obj [("title", .str "Bar chart")])])])]

/-- A page for which the query matched no mdx node: `data.mdx` is `null`. -/
def propsNullMdx : JSValue :=
  .obj [
    ("location", .obj []),
    ("data", .obj [
      ("site", .obj [("siteMetadata", .obj [("title", .str "Dataviz Advent")])]),
      ("mdx", .null)])]

/-- A page whose data has no `site`. -/
def propsWithoutSite : JSValue :=
  .obj [
    ("location", .obj []),
    ("data", .obj [
      ("mdx", .obj [
        ("code", .obj [("body", .str "body")]),
        ("frontmatter", .obj [("title", .str "Bar chart")])])])]

/-- A page whose `site.siteMetadata` is `null`. -/
def propsNullSiteMetadata : JSValue :=
  .obj [
    ("location", .obj []),
    ("data", .obj [
      ("site", .obj [("siteMetadata", .null)]),
      ("mdx", .obj [
        ("code", .obj [("body", .str "body")]),
        ("frontmatter", .obj [("title", .str "Bar chart")])])])]

/-- A page whose frontmatter has no field at all, whose site has no title and
whose code has no body; every object on the way is there. -/
def propsEmptyFields : JSValue :=
  .obj [
    ("location", .obj []),
    ("data", .obj [
      ("site", .obj [("siteMetadata", .obj [])]),
      ("mdx", .obj [
        ("code", .obj []),
        ("frontmatter", .obj [("date", .null)])])])]

/-- The sample page with a title that is an object with an own `toString`
property, as `JSON.parse` builds it from a `toString` key. -/
def propsTitleObject : JSValue :=
  .obj [
    ("location", .obj []),
    ("data", .obj [
      ("site", .obj [("siteMetadata", .obj [("title", .str "Dataviz Advent")])]),
      ("mdx", .obj [
        ("code", .obj [("body", .str "body")]),
        ("frontmatter", .obj [
          ("title", .obj [("toString", .str "x")]),
          ("date", .str "December 01, 2018"),
          ("videoId", .str "v"),
          ("codesandboxId", .str "c"),
          ("intro", .str "A first chart")])])])]

/-- The sample page with a codesandboxId that is an object with an own
`toString` property; the title and the site title are strings. -/
def propsSandboxObject : JSValue :=
  .obj [
    ("location", .obj []),
    ("data", .obj [
      ("site", .obj [("siteMetadata", .obj [("title", .str "Dataviz Advent")])]),
      ("mdx", .obj [
        ("code", .obj [("body", .str "body")]),
        ("frontmatter", .obj [
          ("title", .str "Bar chart"),
          ("date", .str "December 01, 2018"),
          ("videoId", .str "v"),
          ("codesandboxId", .obj [("toString", .str "x")]),
          ("intro", .str "A first chart")])])])]

/-- The sample data with fields the query does not request added and the
requested ones kept. -/
def sampleDataExtra : JSValue :=
  .obj [
    ("allMdx", .obj [("totalCount", .str "24")]),
    ("site", .obj [("siteMetadata",
      .obj [("title", .str "Dataviz Advent"), ("author", .str "someone")])]),
    ("mdx", .obj [
      ("code", .obj [("scope", .str "scope"), ("body", .str "function MDXContent() ...")]),
      ("frontmatter", .obj [
        ("title", .str "Bar chart"),
        ("date", .str "December 01, 2018"),
        ("videoId", .str "a&b #c"),
        ("codesandboxId", .str "5wq1j8zv7l"),
        ("intro", .str "A first chart"),
        ("draft", .bool false)])])]

/-- The sample page over `sampleDataExtra`. -/
def samplePropsExtra : JSValue :=
  .obj [
    ("location", .obj [("pathname", .str "/barchart/")]),
    ("__mdxScope", .obj []),
    ("data", sampleDataExtra)]


/-! ## Reading properties and converting to strings -/

theorem get_eq (v : JSValue) (key : String) :
    v.get key = if v.isNullish = true then .error .typeError else .ok (v.field key) := by
  cases v <;> rfl

theorem getPath_nil (v : JSValue) : v.getPath [] = .ok v := rfl

theorem getPath_cons (v : JSValue) (k : String) (ks : List String) :
    v.getPath (k :: ks) =
      if v.isNullish = true then .error .typeError else (v.field k).getPath ks := by
  cases v <;> rfl

theorem toStr_eq (v : JSValue) :
    v.toStr = if v.ownToString = true then .error .typeError else .ok v.text := by
  cases v with
  | bool b => cases b <;> rfl
  | obj fields =>
    simp only [JSValue.toStr, JSValue.ownToString, JSValue.text]
    cases lookupField "toString" fields <;> simp
  | _ => rfl

theorem toStr_ok (v : JSValue) (s : String) (h : v.toStr = .ok s) :
    v.ownToString = false ∧ v.text = s := by
  rw [toStr_eq] at h
  split_ifs at h with hc
  simp only [Except.ok.injEq] at h
  exact ⟨by simpa using hc, h⟩

/-- The result of `render` in closed form: a `TypeError` when one of the
values a property is read from is `undefined` or `null`, or one of the four
template substitutions is an object with an own `toString`; the page tree
otherwise. -/
theorem render_eq (p : JSValue) :
    BlogPostTemplate.render p =
      if p.isNullish = true ∨ (p.field "data").isNullish = true
          ∨ ((p.field "data").field "mdx").isNullish = true
          ∨ (((p.field "data").field "mdx").field "frontmatter").isNullish = true
          ∨ ((((p.field "data").field "mdx").field "frontmatter").field "title").ownToString
              = true
          ∨ ((p.field "data").field "site").isNullish = true
          ∨ (((p.field "data").field "site").field "siteMetadata").isNullish = true
          ∨ ((((p.field "data").field "site").field "siteMetadata").field "title").ownToString
              = true
          ∨ ((((p.field "data").field "mdx").field "frontmatter").field "videoId").ownToString
              = true
          ∨ ((((p.field "data").field "mdx").field "frontmatter").field
              "codesandboxId").ownToString = true
          ∨ (((p.field "data").field "mdx").field "code").isNullish = true
      then .error .typeError
      else .ok (pageTree (p.field "location")
        ((((p.field "data").field "mdx").field "frontmatter").field "title").text
        ((((p.field "data").field "site").field "siteMetadata").field "title").text
        ((((p.field "data").field "mdx").field "frontmatter").field "date")
        ((((p.field "data").field "mdx").field "frontmatter").field "title")
        ((((p.field "data").field "mdx").field "frontmatter").field "videoId").text
        ((((p.field "data").field "mdx").field "frontmatter").field "intro")
        ((((p.field "data").field "mdx").field "frontmatter").field "codesandboxId").text
        (p.field "__mdxScope")
        ((((p.field "data").field "mdx").field "code").field "body")) := by
  simp only [BlogPostTemplate.render, get_eq, toStr_eq, bind, Except.bind, pure,
    Except.pure]
  by_cases h0 : p.isNullish = true
  · simp [h0]
  by_cases h1 : (p.field "data").isNullish = true
  · simp [h0, h1]
  by_cases h2 : ((p.field "data").field "mdx").isNullish = true
  · simp [h0, h1, h2]
  by_cases h3 : (((p.field "data").field "mdx").field "frontmatter").isNullish = true
  · simp [h0, h1, h2, h3]
  by_cases h4 : ((((p.field "data").field "mdx").field "frontmatter").field
      "title").ownToString = true
  · simp [h0, h1, h2, h3, h4]
  by_cases h5 : ((p.field "data").field "site").isNullish = true
  · simp [h0, h1, h2, h3, h4, h5]
  by_cases h6 : (((p.field "data").field "site").field "siteMetadata").isNullish = true
  · simp [h0, h1, h2, h3, h4, h5, h6]
  by_cases h7 : ((((p.field "data").field "site").field "siteMetadata").field
      "title").ownToString = true
  · simp [h0, h1, h2, h3, h4, h5, h6, h7]
  by_cases h8 : ((((p.field "data").field "mdx").field "frontmatter").field
      "videoId").ownToString = true
  · simp [h0, h1, h2, h3, h4, h5, h6, h7, h8]
  by_cases h9 : ((((p.field "data").field "mdx").field "frontmatter").field
      "codesandboxId").ownToString = true
  · simp [h0, h1, h2, h3, h4, h5, h6, h7, h8, h9]
  by_cases h10 : (((p.field "data").field "mdx").field "code").isNullish = true
  · simp [h0, h1, h2, h3, h4, h5, h6, h7, h8, h9, h10]
  simp [h0, h1, h2, h3, h4, h5, h6, h7, h8, h9, h10]

/-- The render succeeds as soon as the chains of reads it performs on the page
data and the four string conversions do. -/
theorem render_ok_of_reads (p t s v c b : JSValue) (tt st vt ct : String)
    (ht : p.getPath ["data", "mdx", "frontmatter", "title"] = .ok t)
    (htt : t.toStr = .ok tt)
    (hs : p.getPath ["data", "site", "siteMetadata", "title"] = .ok s)
    (hst : s.toStr = .ok st)
    (hv : p.getPath ["data", "mdx", "frontmatter", "videoId"] = .ok v)
    (hvt : v.toStr = .ok vt)
    (hc : p.getPath ["data", "mdx", "frontmatter", "codesandboxId"] = .ok c)
    (hct : c.toStr = .ok ct)
    (hb : p.getPath ["data", "mdx", "code", "body"] = .ok b) :
    BlogPostTemplate.render p =
      .ok (pageTree (p.field "location") tt st
        ((((p.field "data").field "mdx").field "frontmatter").field "date") t vt
        ((((p.field "data").field "mdx").field "frontmatter").field "intro") ct
        (p.field "__mdxScope") b) := by
  obtain ⟨ht1, ht2⟩ := toStr_ok t tt htt
  obtain ⟨hs1, hs2⟩ := toStr_ok s st hst
  obtain ⟨hv1, hv2⟩ := toStr_ok v vt hvt
  obtain ⟨hc1, hc2⟩ := toStr_ok c ct hct
  simp only [getPath_cons, getPath_nil] at ht hs hv hc hb
  split_ifs at ht hs hv hc hb
  simp only [Except.ok.injEq] at ht hs hv hc hb
  subst ht hs hv hc hb
  subst ht2 hs2 hv2 hc2
  simp_all [render_eq]

/-! ## The tree `render` returns -/

/-- C2. For every frontmatter title `t` and site title `s` that are strings,
on a page whose other reads and string conversions raise nothing, `render`
returns a tree with one `Helmet` element, whose only prop is `title`, the
string `t` followed by `" | "` followed by `s`. -/
theorem C2_helmet_title (p : JSValue) (t s : String)
    (ht : p.getPath ["data", "mdx", "frontmatter", "title"] = .ok (.str t))
    (hs : p.getPath ["data", "site", "siteMetadata", "title"] = .ok (.str s))
    (hv : ReadableText p ["data", "mdx", "frontmatter", "videoId"])
    (hc : ReadableText p ["data", "mdx", "frontmatter", "codesandboxId"])
    (hb : Readable p ["data", "mdx", "code", "body"]) :
    ∃ tree, BlogPostTemplate.render p = .ok tree ∧
      tree.findAll .Helmet = [.element .Helmet [("title", .str (t ++ " | " ++ s))] []] := by
  obtain ⟨v, vt, hv, hvt⟩ := hv
  obtain ⟨c, ct, hc, hct⟩ := hc
  obtain ⟨b, hb⟩ := hb
  refine ⟨_, render_ok_of_reads p _ _ v c b t s vt ct ht rfl hs rfl hv hvt hc hct hb, ?_⟩
  simp [Node.findAll, pageTree, Node.elements, Node.elementsOfList, Node.type?]

/-- C2 at the sample page. -/
theorem C2_helmet_title_witness :
    ∃ tree, BlogPostTemplate.render sampleProps = .ok tree ∧
      tree.findAll .Helmet =
        [.element .Helmet [("title", .str ("Bar chart" ++ " | " ++ "Dataviz Advent"))] []] :=
  C2_helmet_title sampleProps "Bar chart" "Dataviz Advent" rfl rfl ⟨_, _, rfl, rfl⟩
    ⟨_, _, rfl, rfl⟩ ⟨_, rfl⟩

/-- C3. For every videoId `v` that is a string, the empty string and strings
with URL-significant characters included, on a page whose other reads and
string conversions raise nothing, `render` returns a tree with one
`ReactPlayer` element, whose only prop is `url`, the watch URL followed by `v`
unchanged. -/
theorem C3_player_url (p : JSValue) (v : String)
    (hv : p.getPath ["data", "mdx", "frontmatter", "videoId"] = .ok (.str v))
    (ht : ReadableText p ["data", "mdx", "frontmatter", "title"])
    (hs : ReadableText p ["data", "site", "siteMetadata", "title"])
    (hc : ReadableText p ["data", "mdx", "frontmatter", "codesandboxId"])
    (hb : Readable p ["data", "mdx", "code", "body"]) :
    ∃ tree, BlogPostTemplate.render p = .ok tree ∧
      tree.findAll .ReactPlayer =
        [.element .ReactPlayer
          [("url", .str ("https://www.youtube.com/watch?v=" ++ v))] []] := by
  obtain ⟨t, tt, ht, htt⟩ := ht
  obtain ⟨s, st, hs, hst⟩ := hs
  obtain ⟨c, ct, hc, hct⟩ := hc
  obtain ⟨b, hb⟩ := hb
  refine ⟨_, render_ok_of_reads p t s _ c b tt st v ct ht htt hs hst hv rfl hc hct hb, ?_⟩
  simp [Node.findAll, pageTree, Node.elements, Node.elementsOfList, Node.type?]

/-- C3 at the sample page, whose videoId holds an ampersand, a space and a
hash sign. -/
theorem C3_player_url_witness :
    ∃ tree, BlogPostTemplate.render sampleProps = .ok tree ∧
      tree.findAll .ReactPlayer =
        [.element .ReactPlayer
          [("url", .str ("https://www.youtube.com/watch?v=" ++ "a&b #c"))] []] :=
  C3_player_url sampleProps "a&b #c" rfl ⟨_, _, rfl, rfl⟩ ⟨_, _, rfl, rfl⟩
    ⟨_, _, rfl, rfl⟩ ⟨_, rfl⟩

/-- C4. For every codesandboxId `c` that is a string, on a page whose other
reads and string conversions raise nothing, `render` returns a tree with one
`Codesandbox` iframe, whose `src` is the embed URL followed by `c` unchanged. -/
theorem C4_sandbox_src (p : JSValue) (c : String)
    (hc : p.getPath ["data", "mdx", "frontmatter", "codesandboxId"] = .ok (.str c))
    (ht : ReadableText p ["data", "mdx", "frontmatter", "title"])
    (hs : ReadableText p ["data", "site", "siteMetadata", "title"])
    (hv : ReadableText p ["data", "mdx", "frontmatter", "videoId"])
    (hb : Readable p ["data", "mdx", "code", "body"]) :
    ∃ tree, BlogPostTemplate.render p = .ok tree ∧
      (tree.findAll .Codesandbox).map (fun e => e.prop? "src") =
        [some (.str ("https://codesandbox.io/embed/" ++ c))] := by
  obtain ⟨t, tt, ht, htt⟩ := ht
  obtain ⟨s, st, hs, hst⟩ := hs
  obtain ⟨v, vt, hv, hvt⟩ := hv
  obtain ⟨b, hb⟩ := hb
  refine ⟨_, render_ok_of_reads p t s v _ b tt st vt c ht htt hs hst hv hvt hc rfl hb, ?_⟩
  simp [Node.findAll, pageTree, Node.elements, Node.elementsOfList, Node.type?,
    Node.prop?, Node.props, lookupField]

/-- C4 at the sample page. -/
theorem C4_sandbox_src_witness :
    ∃ tree, BlogPostTemplate.render sampleProps = .ok tree ∧
      (tree.findAll .Codesandbox).map (fun e => e.prop? "src") =
        [some (.str ("https://codesandbox.io/embed/" ++ "5wq1j8zv7l"))] :=
  C4_sandbox_src sampleProps "5wq1j8zv7l" rfl ⟨_, _, rfl, rfl⟩ ⟨_, _, rfl, rfl⟩
    ⟨_, _, rfl, rfl⟩ ⟨_, rfl⟩

/-- C5. For every body payload `b` read from `data.mdx.code.body`, on a page
whose other reads and string conversions raise nothing, `render` returns a
tree with one `MDXRenderer` element, whose children are the one value `b`. -/
theorem C5_body_passed_through (p b : JSValue)
    (hb : p.getPath ["data", "mdx", "code", "body"] = .ok b)
    (ht : ReadableText p ["data", "mdx", "frontmatter", "title"])
    (hs : ReadableText p ["data", "site", "siteMetadata", "title"])
    (hv : ReadableText p ["data", "mdx", "frontmatter", "videoId"])
    (hc : ReadableText p ["data", "mdx", "frontmatter", "codesandboxId"]) :
    ∃ tree, BlogPostTemplate.render p = .ok tree ∧
      (tree.findAll .MDXRenderer).map Node.children = [[.value b]] := by
  obtain ⟨t, tt, ht, htt⟩ := ht
  obtain ⟨s, st, hs, hst⟩ := hs
  obtain ⟨v, vt, hv, hvt⟩ := hv
  obtain ⟨c, ct, hc, hct⟩ := hc
  refine ⟨_, render_ok_of_reads p t s v c b tt st vt ct ht htt hs hst hv hvt hc hct hb, ?_⟩
  simp [Node.findAll, pageTree, Node.elements, Node.elementsOfList, Node.type?,
    Node.children]

/-- C5 at the sample page. -/
theorem C5_body_passed_through_witness :
    ∃ tree, BlogPostTemplate.render sampleProps = .ok tree ∧
      (tree.findAll .MDXRenderer).map Node.children
        = [[.value (.str "function MDXContent() ...")]] :=
  C5_body_passed_through sampleProps (.str "function MDXContent() ...") rfl
    ⟨_, _, rfl, rfl⟩ ⟨_, _, rfl, rfl⟩ ⟨_, _, rfl, rfl⟩ ⟨_, _, rfl, rfl⟩

/-- C1, as stated, fails. On the sample page the content column holds, between
the lead text and the sandbox iframe, an `h2` heading the list leaves out, so
the elements of the column in document order are not the nine listed, with or
without the two `div` wrappers. A page whose data has a site title, an mdx
node and its frontmatter, and no `code`, is given no tree at all, and neither
is one whose codesandboxId is an object with an own `toString`. -/
theorem C1_counterexample :
    (∃ tree column, BlogPostTemplate.render sampleProps = .ok tree ∧
      tree.middles = [column] ∧
      typesOf column.descendants ≠
        [.Helmet, .PostHeader, .host "h1", .ReactPlayer, .Lead, .Codesandbox,
          .MDXRenderer, .host "hr", .DripEmail] ∧
      (typesOf column.descendants).filter (fun t => decide (t ≠ .host "div")) ≠
        [.Helmet, .PostHeader, .host "h1", .ReactPlayer, .Lead, .Codesandbox,
          .MDXRenderer, .host "hr", .DripEmail] ∧
      ElementType.host "h2" ∈ typesOf column.descendants) ∧
    (Readable propsWithoutCode ["data", "site", "siteMetadata", "title"] ∧
      Readable propsWithoutCode ["data", "mdx", "frontmatter", "title"] ∧
      BlogPostTemplate.render propsWithoutCode = .error .typeError) ∧
    (Readable propsSandboxObject ["data", "site", "siteMetadata", "title"] ∧
      Readable propsSandboxObject ["data", "mdx", "frontmatter", "title"] ∧
      Readable propsSandboxObject ["data", "mdx", "code", "body"] ∧
      BlogPostTemplate.render propsSandboxObject = .error .typeError) := by
  refine ⟨⟨_, _, rfl, rfl, ?_, ?_, ?_⟩, ⟨⟨_, rfl⟩, ⟨_, rfl⟩, rfl⟩,
    ⟨_, rfl⟩, ⟨_, rfl⟩, ⟨_, rfl⟩, rfl⟩
  · simp [typesOf, Node.descendants, Node.children, Node.elements,
      Node.elementsOfList, Node.type?]
  · simp [typesOf, Node.descendants, Node.children, Node.elements,
      Node.elementsOfList, Node.type?]
  · simp [typesOf, Node.descendants, Node.children, Node.elements,
      Node.elementsOfList, Node.type?]

/-- C1, amended. For every props value whose data carries the site metadata,
an mdx node, its frontmatter and its code, and whose title, site title,
videoId and codesandboxId convert to strings, `render` returns a tree whose
root is `Layout`; its one child is the `Wrapper`, whose children are the
`Header`, the one content column and the `Footer`; and the elements of the
column in document order are the `HeadTop` div, `Helmet`, `PostHeader`, the
`h1`, `ReactPlayer`, the lead text, an `h2` heading, the sandbox iframe, a
div, `MDXRenderer`, the `hr` and `DripEmail`. -/
theorem C1_tree_structure (p : JSValue)
    (ht : ReadableText p ["data", "mdx", "frontmatter", "title"])
    (hs : ReadableText p ["data", "site", "siteMetadata", "title"])
    (hv : ReadableText p ["data", "mdx", "frontmatter", "videoId"])
    (hc : ReadableText p ["data", "mdx", "frontmatter", "codesandboxId"])
    (hb : Readable p ["data", "mdx", "code", "body"]) :
    ∃ tree wrapper header column footer,
      BlogPostTemplate.render p = .ok tree ∧
      tree.type? = some .Layout ∧ tree.children = [wrapper] ∧
      wrapper.type? = some .Wrapper ∧ wrapper.children = [header, column, footer] ∧
      header.type? = some .Header ∧ column.isMiddle = true ∧
      footer.type? = some .Footer ∧ tree.middles = [column] ∧
      typesOf column.descendants =
        [.host "div", .Helmet, .PostHeader, .host "h1", .ReactPlayer, .Lead,
          .host "h2", .Codesandbox, .host "div", .MDXRenderer, .host "hr",
          .DripEmail] ∧
      (typesOf column.descendants).filter (fun t => decide (t ≠ .host "div")) =
        [.Helmet, .PostHeader, .host "h1", .ReactPlayer, .Lead, .host "h2",
          .Codesandbox, .MDXRenderer, .host "hr", .DripEmail] := by
  obtain ⟨t, tt, ht, htt⟩ := ht
  obtain ⟨s, st, hs, hst⟩ := hs
  obtain ⟨v, vt, hv, hvt⟩ := hv
  obtain ⟨c, ct, hc, hct⟩ := hc
  obtain ⟨b, hb⟩ := hb
  refine ⟨_, _, _, _, _,
    render_ok_of_reads p t s v c b tt st vt ct ht htt hs hst hv hvt hc hct hb,
    rfl, rfl, rfl, rfl, rfl, rfl, rfl, ?_, ?_, ?_⟩
  · simp [pageTree, Node.middles, Node.elements, Node.elementsOfList, Node.isMiddle,
      Node.type?, Node.prop?, Node.props, lookupField]
  · simp [typesOf, Node.descendants, Node.children, Node.elements,
      Node.elementsOfList, Node.type?]
  · simp [typesOf, Node.descendants, Node.children, Node.elements,
      Node.elementsOfList, Node.type?]

/-- C1, amended, at the sample page. -/
theorem C1_tree_structure_witness :
    ∃ tree wrapper header column footer,
      BlogPostTemplate.render sampleProps = .ok tree ∧
      tree.type? = some .Layout ∧ tree.children = [wrapper] ∧
      wrapper.type? = some .Wrapper ∧ wrapper.children = [header, column, footer] ∧
      header.type? = some .Header ∧ column.isMiddle = true ∧
      footer.type? = some .Footer ∧ tree.middles = [column] ∧
      typesOf column.descendants =
        [.host "div", .Helmet, .PostHeader, .host "h1", .ReactPlayer, .Lead,
          .host "h2", .Codesandbox, .host "div", .MDXRenderer, .host "hr",
          .DripEmail] ∧
      (typesOf column.descendants).filter (fun t => decide (t ≠ .host "div")) =
        [.Helmet, .PostHeader, .host "h1", .ReactPlayer, .Lead, .host "h2",
          .Codesandbox, .MDXRenderer, .host "hr", .DripEmail] :=
  C1_tree_structure sampleProps ⟨_, _, rfl, rfl⟩ ⟨_, _, rfl, rfl⟩ ⟨_, _, rfl, rfl⟩
    ⟨_, _, rfl, rfl⟩ ⟨_, rfl⟩

/-! ## What the tree depends on -/

/-- C6, as stated, fails: two props values with the same `data` and the same
`location`, and another `__mdxScope`, are given two different trees. -/
theorem C6_counterexample :
    sampleProps.get "data" = samplePropsOtherScope.get "data" ∧
    sampleProps.get "location" = samplePropsOtherScope.get "location" ∧
    BlogPostTemplate.render sampleProps ≠ BlogPostTemplate.render samplePropsOtherScope := by
  refine ⟨rfl, rfl, ?_⟩
  intro h
  have h1 : (BlogPostTemplate.render sampleProps).map
      (fun t => (t.findAll .MDXRenderer).map (fun e => e.prop? "scope"))
      = .ok [some (.obj [])] := rfl
  have h2 : (BlogPostTemplate.render samplePropsOtherScope).map
      (fun t => (t.findAll .MDXRenderer).map (fun e => e.prop? "scope"))
      = .ok [some (.obj [("Chart", .str "component")])] := rfl
  rw [h] at h1
  rw [h1] at h2
  simp at h2

/-- C6, amended. The result of `render` is a function of `data`, `location`
and `__mdxScope` alone: two props values that agree on the three are given the
same result, whatever their children and other props are. -/
theorem C6_render_depends_on (p q : JSValue)
    (hd : p.get "data" = q.get "data")
    (hl : p.get "location" = q.get "location")
    (hm : p.get "__mdxScope" = q.get "__mdxScope") :
    BlogPostTemplate.render p = BlogPostTemplate.render q := by
  rw [get_eq, get_eq] at hd hl hm
  by_cases hp : p.isNullish = true <;> by_cases hq : q.isNullish = true
  · simp [render_eq, hp, hq]
  · simp [hp, hq] at hd
  · simp [hp, hq] at hd
  · simp [hp, hq] at hd hl hm
    simp [render_eq, hp, hq, hd, hl, hm]

/-- C6, amended, at two props values that differ in `children` and in
`pageContext`. -/
theorem C6_render_depends_on_witness :
    BlogPostTemplate.render sampleProps =
      BlogPostTemplate.render
        (.obj [("children", .str "ignored"), ("data", sampleData),
          ("pageContext", .obj [("slug", .str "/barchart/")]),
          ("__mdxScope", .obj []),
          ("location", .obj [("pathname", .str "/barchart/")])]) :=
  C6_render_depends_on sampleProps _ rfl rfl rfl

/-! ## The lifecycle -/

theorem run_renders_log (s : Instance) (events : List LifecycleEvent)
    (h : ∀ e ∈ events, ∃ props, e = .render props) :
    (s.run events).log = s.log := by
  induction events generalizing s with
  | nil => rfl
  | cons e es ih =>
    obtain ⟨props, rfl⟩ := h e (List.mem_cons_self _ _)
    simp only [Instance.run, List.foldl_cons]
    exact ih (s.step (.render props)) (fun e he => h e (List.mem_cons_of_mem _ he))

theorem laterRenders_renders (updates : List JSValue) :
    ∀ e ∈ laterRenders updates, ∃ props, e = .render props := by
  induction updates with
  | nil =>
    intro e he
    simp [laterRenders] at he
  | cons u us ih =>
    intro e he
    simp only [laterRenders, List.mem_cons] at he
    rcases he with he | he
    · exact ⟨u, he⟩
    · cases hr : BlogPostTemplate.render u with
      | ok tree =>
        rw [hr] at he
        exact ih e he
      | error err =>
        rw [hr] at he
        simp at he

/-- C7. A render step leaves the effect log as it is, and `componentDidMount`
appends exactly one `Prism.highlightAll` call. So at every point of a
lifecycle the log holds no call up to the first render and, from the mount
on, the one call, however many renders follow; over a whole lifecycle the log
is that one call when the first render returned a tree and the host attached
it, and is empty when the first render raised or the tree was not attached,
for then the host does not mount. -/
theorem C7_highlight_once :
    (∀ (s : Instance) (props : JSValue), (s.step (.render props)).log = s.log) ∧
    (∀ log : EffectLog,
      BlogPostTemplate.componentDidMount log = log ++ [Effect.prismHighlightAll]) ∧
    (∀ (first : JSValue) (attached : Bool) (updates : List JSValue) (k : Nat),
      (Instance.init.run ((lifecycle first attached updates).take k)).log =
        if 2 ≤ k ∧ attached = true ∧ returned (BlogPostTemplate.render first) = true
        then [Effect.prismHighlightAll] else []) ∧
    (∀ (first : JSValue) (attached : Bool) (updates : List JSValue),
      (Instance.init.run (lifecycle first attached updates)).log =
        if attached = true ∧ returned (BlogPostTemplate.render first) = true
        then [Effect.prismHighlightAll] else []) := by
  have key : ∀ (first : JSValue) (tree : Node) (events : List LifecycleEvent),
      BlogPostTemplate.render first = .ok tree →
      (∀ e ∈ events, ∃ props, e = .render props) →
      (Instance.init.run (.render first :: .mount :: events)).log
        = [Effect.prismHighlightAll] := by
    intro first tree events hr hev
    simp only [Instance.run, List.foldl_cons, Instance.step, hr]
    exact run_renders_log _ events hev
  refine ⟨fun _ _ => rfl, fun _ => rfl, ?_, ?_⟩
  · intro first attached updates k
    cases hr : BlogPostTemplate.render first with
    | error err =>
      have hl : lifecycle first attached updates = [.render first] := by
        simp [lifecycle, hr, returned]
      rw [hl]
      have hlog : (Instance.init.run (List.take k [LifecycleEvent.render first])).log
          = [] :=
        run_renders_log _ _ (fun e he => ⟨first, by
          have := List.mem_of_mem_take he
          simpa using this⟩)
      simp [hlog, returned]
    | ok tree =>
      cases attached with
      | false =>
        have hl : lifecycle first false updates = [.render first] := by
          simp [lifecycle, hr, returned]
        rw [hl]
        have hlog : (Instance.init.run (List.take k [LifecycleEvent.render first])).log
            = [] :=
          run_renders_log _ _ (fun e he => ⟨first, by
            have := List.mem_of_mem_take he
            simpa using this⟩)
        simp [hlog]
      | true =>
        have hl : lifecycle first true updates
            = .render first :: .mount :: laterRenders updates := by
          simp [lifecycle, hr, returned]
        rw [hl]
        match k with
        | 0 => simp [Instance.run, Instance.init]
        | 1 => simp [Instance.run, Instance.init, Instance.step]
        | k + 2 =>
          simp only [List.take_succ_cons]
          rw [key first tree _ hr (fun e he =>
            laterRenders_renders updates e (List.mem_of_mem_take he))]
          simp [returned]
  · intro first attached updates
    cases hr : BlogPostTemplate.render first with
    | error err =>
      simp [lifecycle, hr, returned, Instance.run, Instance.init, Instance.step]
    | ok tree =>
      cases attached with
      | false =>
        simp [lifecycle, hr, returned, Instance.run, Instance.init, Instance.step]
      | true =>
        have hl : lifecycle first true updates
            = .render first :: .mount :: laterRenders updates := by
          simp [lifecycle, hr, returned]
        rw [hl, key first tree _ hr (laterRenders_renders updates)]
        simp [returned]


/-! ## Absent and malformed fields -/

/-- C8, as stated, fails: when `data.mdx` is `null`, when `data.site` is
absent, when `data.site.siteMetadata` is `null`, when `data.mdx.code` is
absent and when the title is an object with an own `toString`, `render`
raises a `TypeError` and returns no rendering. -/
theorem C8_counterexample :
    (propsNullMdx.getPath ["data", "mdx"] = .ok .null ∧
      BlogPostTemplate.render propsNullMdx = .error .typeError) ∧
    (propsWithoutSite.getPath ["data", "site"] = .ok .undefined ∧
      BlogPostTemplate.render propsWithoutSite = .error .typeError) ∧
    (propsNullSiteMetadata.getPath ["data", "site", "siteMetadata"] = .ok .null ∧
      BlogPostTemplate.render propsNullSiteMetadata = .error .typeError) ∧
    (propsWithoutCode.getPath ["data", "mdx", "code"] = .ok .undefined ∧
      BlogPostTemplate.render propsWithoutCode = .error .typeError) ∧
    (propsTitleObject.getPath ["data", "mdx", "frontmatter", "title"]
        = .ok (.obj [("toString", .str "x")]) ∧
      BlogPostTemplate.render propsTitleObject = .error .typeError) :=
  ⟨⟨rfl, rfl⟩, ⟨rfl, rfl⟩, ⟨rfl, rfl⟩, ⟨rfl, rfl⟩, ⟨rfl, rfl⟩⟩

/-- C8, amended. When the objects the fields are read from are there and the
title, site title, videoId and codesandboxId convert to strings, as
`undefined` and `null` do, `render` raises nothing whatever the date, the
intro and the body are: the date, the title, the intro and the body reach
`PostHeader`, the `h1`, the lead text and `MDXRenderer` as they are, and the
title, site title, videoId and codesandboxId enter the three template strings
as their conversions, `undefined` and `null` written out. When one of `data`,
`data.mdx`, `data.mdx.frontmatter`, `data.site`, `data.site.siteMetadata` and
`data.mdx.code` is `undefined` or `null`, `render` raises a `TypeError`. -/
theorem C8_absent_fields (p : JSValue) :
    (∀ (t s d v i c b : JSValue) (tt st vt ct : String),
      p.getPath ["data", "mdx", "frontmatter", "title"] = .ok t → t.toStr = .ok tt →
      p.getPath ["data", "site", "siteMetadata", "title"] = .ok s → s.toStr = .ok st →
      p.getPath ["data", "mdx", "frontmatter", "date"] = .ok d →
      p.getPath ["data", "mdx", "frontmatter", "videoId"] = .ok v → v.toStr = .ok vt →
      p.getPath ["data", "mdx", "frontmatter", "intro"] = .ok i →
      p.getPath ["data", "mdx", "frontmatter", "codesandboxId"] = .ok c →
      c.toStr = .ok ct →
      p.getPath ["data", "mdx", "code", "body"] = .ok b →
      ∃ tree, BlogPostTemplate.render p = .ok tree ∧
        tree.findAll .PostHeader = [.element .PostHeader [("postdate", d)] []] ∧
        tree.findAll (.host "h1") = [.element (.host "h1") [] [.value t]] ∧
        tree.findAll .Lead = [.element .Lead [] [.value i]] ∧
        (tree.findAll .MDXRenderer).map Node.children = [[.value b]] ∧
        (tree.findAll .Helmet).map (fun e => e.prop? "title") =
          [some (.str (tt ++ " | " ++ st))] ∧
        (tree.findAll .ReactPlayer).map (fun e => e.prop? "url") =
          [some (.str ("https://www.youtube.com/watch?v=" ++ vt))] ∧
        (tree.findAll .Codesandbox).map (fun e => e.prop? "src") =
          [some (.str ("https://codesandbox.io/embed/" ++ ct))]) ∧
    JSValue.undefined.toStr = .ok "undefined" ∧ JSValue.null.toStr = .ok "null" ∧
    (∀ path ∈ [["data"], ["data", "mdx"], ["data", "mdx", "frontmatter"],
        ["data", "site"], ["data", "site", "siteMetadata"], ["data", "mdx", "code"]],
      ∀ x, p.getPath path = .ok x → x.isNullish = true →
        BlogPostTemplate.render p = .error .typeError) := by
  refine ⟨?_, rfl, rfl, ?_⟩
  · intro t s d v i c b tt st vt ct ht htt hs hst hd hv hvt hi hc hct hb
    have hr := render_ok_of_reads p t s v c b tt st vt ct ht htt hs hst hv hvt hc hct hb
    simp only [getPath_cons, getPath_nil] at hd hi
    split_ifs at hd hi
    simp only [Except.ok.injEq] at hd hi
    rw [hd, hi] at hr
    refine ⟨_, hr, ?_⟩
    simp [Node.findAll, pageTree, Node.elements, Node.elementsOfList, Node.type?,
      Node.children, Node.prop?, Node.props, lookupField]
  · intro path hmem x hx hn
    simp only [List.mem_cons, List.mem_singleton, List.not_mem_nil, or_false] at hmem
    rcases hmem with h | h | h | h | h | h <;> subst h <;>
      simp only [getPath_cons, getPath_nil] at hx <;>
      split_ifs at hx <;>
      simp only [Except.ok.injEq] at hx <;>
      subst hx <;>
      simp [render_eq, hn]

/-- C8, amended, at a page whose frontmatter fields, site title and body are
absent or `null`, and at a page whose `data.mdx` is `null`. -/
theorem C8_absent_fields_witness :
    (∃ tree, BlogPostTemplate.render propsEmptyFields = .ok tree ∧
        tree.findAll .PostHeader = [.element .PostHeader [("postdate", .null)] []] ∧
        tree.findAll (.host "h1") = [.element (.host "h1") [] [.value .undefined]] ∧
        tree.findAll .Lead = [.element .Lead [] [.value .undefined]] ∧
        (tree.findAll .MDXRenderer).map Node.children = [[.value .undefined]] ∧
        (tree.findAll .Helmet).map (fun e => e.prop? "title") =
          [some (.str ("undefined" ++ " | " ++ "undefined"))] ∧
        (tree.findAll .ReactPlayer).map (fun e => e.prop? "url") =
          [some (.str ("https://www.youtube.com/watch?v=" ++ "undefined"))] ∧
        (tree.findAll .Codesandbox).map (fun e => e.prop? "src") =
          [some (.str ("https://codesandbox.io/embed/" ++ "undefined"))]) ∧
    BlogPostTemplate.render propsNullMdx = .error .typeError :=
  ⟨(C8_absent_fields propsEmptyFields).1 .undefined .undefined .null .undefined
      .undefined .undefined .undefined "undefined" "undefined" "undefined" "undefined"
      rfl rfl rfl rfl rfl rfl rfl rfl rfl rfl rfl,
    (C8_absent_fields propsNullMdx).2.2.2 ["data", "mdx"] (by simp) .null rfl rfl⟩

/-! ## pageQuery -/

/-- C9. `pageQuery` declares the one variable `slug` of type `String!`; its
top-level fields are `site` and `mdx`; the only fields with arguments are
`mdx`, filtered on `fields.slug` equal to the variable `slug`, and the
frontmatter `date`, with the format string `MMMM DD, YYYY`; and the leaf
fields it requests are the site title, the mdx id, the code body and the
frontmatter title, date, videoId, codesandboxId and intro. -/
theorem C9_pageQuery_shape :
    pageQuery.variableDefinitions = [("slug", .nonNull (.named "String"))] ∧
    pageQuery.argumentSites =
      [(["mdx"], [("fields", .object [("slug", .object [("eq", .variable "slug")])])]),
       (["mdx", "frontmatter", "date"], [("formatString", .string "MMMM DD, YYYY")])] ∧
    pageQuery.leafPaths =
      [["site", "siteMetadata", "title"],
       ["mdx", "id"],
       ["mdx", "code", "body"],
       ["mdx", "frontmatter", "title"],
       ["mdx", "frontmatter", "date"],
       ["mdx", "frontmatter", "videoId"],
       ["mdx", "frontmatter", "codesandboxId"],
       ["mdx", "frontmatter", "intro"]] := by
  refine ⟨rfl, ?_, ?_⟩
  · simp [Query.argumentSites, pageQuery, Selection.argumentSitesOfList,
      Selection.argumentSites]
  · simp [Query.leafPaths, pageQuery, Selection.leafPathsOfList, Selection.leafPaths]

/-! ## The reads of `render` and the fields of `pageQuery` -/

theorem render_eq_renderFrom (p : JSValue) :
    BlogPostTemplate.render p =
      if p.isNullish = true then .error .typeError
      else renderFrom (p.field "location") (p.field "__mdxScope")
        ((p.field "data").getPath ["mdx", "frontmatter", "title"])
        ((p.field "data").getPath ["site", "siteMetadata", "title"])
        ((p.field "data").getPath ["mdx", "frontmatter", "date"])
        ((p.field "data").getPath ["mdx", "frontmatter", "videoId"])
        ((p.field "data").getPath ["mdx", "frontmatter", "intro"])
        ((p.field "data").getPath ["mdx", "frontmatter", "codesandboxId"])
        ((p.field "data").getPath ["mdx", "code", "body"]) := by
  simp only [render_eq, renderFrom, getPath_cons, getPath_nil, toStr_eq, bind,
    Except.bind, pure, Except.pure]
  by_cases h0 : p.isNullish = true
  · simp [h0]
  by_cases h1 : (p.field "data").isNullish = true
  · simp [h0, h1]
  by_cases h2 : ((p.field "data").field "mdx").isNullish = true
  · simp [h0, h1, h2]
  by_cases h3 : (((p.field "data").field "mdx").field "frontmatter").isNullish = true
  · simp [h0, h1, h2, h3]
  by_cases h4 : ((((p.field "data").field "mdx").field "frontmatter").field
      "title").ownToString = true
  · simp [h0, h1, h2, h3, h4]
  by_cases h5 : ((p.field "data").field "site").isNullish = true
  · simp [h0, h1, h2, h3, h4, h5]
  by_cases h6 : (((p.field "data").field "site").field "siteMetadata").isNullish = true
  · simp [h0, h1, h2, h3, h4, h5, h6]
  by_cases h7 : ((((p.field "data").field "site").field "siteMetadata").field
      "title").ownToString = true
  · simp [h0, h1, h2, h3, h4, h5, h6, h7]
  by_cases h8 : ((((p.field "data").field "mdx").field "frontmatter").field
      "videoId").ownToString = true
  · simp [h0, h1, h2, h3, h4, h5, h6, h7, h8]
  by_cases h9 : ((((p.field "data").field "mdx").field "frontmatter").field
      "codesandboxId").ownToString = true
  · simp [h0, h1, h2, h3, h4, h5, h6, h7, h8, h9]
  by_cases h10 : (((p.field "data").field "mdx").field "code").isNullish = true
  · simp [h0, h1, h2, h3, h4, h5, h6, h7, h8, h9, h10]
  simp [h0, h1, h2, h3, h4, h5, h6, h7, h8, h9, h10]

/-- C10. Every chain of reads `render` makes on `data` ends at a leaf field
`pageQuery` requests, and these chains are all `render` reads of `data`: two
props values with the same `location` and `__mdxScope` whose data give the
same outcome on every one of the chains are given the same result, whatever
else the two data hold. -/
theorem C10_reads_within_query :
    (∀ path ∈ renderDataPaths, path ∈ pageQuery.leafPaths) ∧
    (∀ p q d e : JSValue,
      p.get "data" = .ok d → q.get "data" = .ok e →
      p.get "location" = q.get "location" →
      p.get "__mdxScope" = q.get "__mdxScope" →
      (∀ path ∈ renderDataPaths, d.getPath path = e.getPath path) →
      BlogPostTemplate.render p = BlogPostTemplate.render q) := by
  constructor
  · intro path hmem
    simp only [renderDataPaths, List.mem_cons, List.mem_singleton, List.not_mem_nil,
      or_false] at hmem
    rcases hmem with h | h | h | h | h | h | h <;> subst h <;>
      simp [Query.leafPaths, pageQuery, Selection.leafPathsOfList, Selection.leafPaths]
  · intro p q d e hd he hl hm hpaths
    rw [get_eq] at hd he
    rw [get_eq, get_eq] at hl hm
    have hp : ¬ p.isNullish = true := by
      intro h
      simp [h] at hd
    have hq : ¬ q.isNullish = true := by
      intro h
      simp [h] at he
    simp [hp] at hd
    simp [hq] at he
    simp [hp, hq] at hl hm
    have h1 := hpaths ["mdx", "frontmatter", "title"] (by simp [renderDataPaths])
    have h2 := hpaths ["site", "siteMetadata", "title"] (by simp [renderDataPaths])
    have h3 := hpaths ["mdx", "frontmatter", "date"] (by simp [renderDataPaths])
    have h4 := hpaths ["mdx", "frontmatter", "videoId"] (by simp [renderDataPaths])
    have h5 := hpaths ["mdx", "frontmatter", "intro"] (by simp [renderDataPaths])
    have h6 := hpaths ["mdx", "frontmatter", "codesandboxId"] (by simp [renderDataPaths])
    have h7 := hpaths ["mdx", "code", "body"] (by simp [renderDataPaths])
    rw [render_eq_renderFrom p, render_eq_renderFrom q, if_neg hp, if_neg hq, hd, he, hl,
      hm, h1, h2, h3, h4, h5, h6, h7]

/-- C10 at the sample page and at the same page over data that hold fields the
query does not request. -/
theorem C10_reads_within_query_witness :
    BlogPostTemplate.render sampleProps = BlogPostTemplate.render samplePropsExtra :=
  C10_reads_within_query.2 sampleProps samplePropsExtra sampleData sampleDataExtra
    rfl rfl rfl rfl (by
      intro path hmem
      simp only [renderDataPaths, List.mem_cons, List.mem_singleton, List.not_mem_nil,
        or_false] at hmem
      rcases hmem with h | h | h | h | h | h | h <;> subst h <;> rfl)


end BlogPost
